import Mathlib

/-!
Verification of the klee-bench repository: a shallow embedding of the
configuration-to-command-line translator (src/runklee.py), the statistics
CSV reader (src/kresult.py) and the path/CSV helpers (src/util.py),
together with theorems settling the behavioural claims about them.

Machine integers are modelled as `Int` (Python integers are unbounded, so
no wrap-around is involved).  Python `None` is modelled by `Option`,
raised exceptions by `Option`/`Except` results.  The two environment
variables `KLEE_BIN_ABS_PATH` and `COREUTILS_SRC_ABS_PATH` are passed as
explicit string parameters (the model assumes they are set, as every run
of the program requires).
-/

namespace KleeBench

/-! ### util.py -/

/-- Model of `os.path.join` (POSIX, two components), used by
`klee_exec_path` and `coreutils_src_path`:  if the second component is
absolute it wins; otherwise it is appended, inserting `/` unless the
first component is empty or already ends with `/`. -/
def pathJoin (a b : String) : String :=
  if b.data.head? = some '/' then b
  else if a = "" ∨ a.data.getLast? = some '/' then a ++ b
  else a ++ "/" ++ b

/-- `util.klee_exec_path`: join the KLEE bin directory with an executable
name. -/
def klee_exec_path (kleeBinPath : String) (exec_name : String) : String :=
  pathJoin kleeBinPath exec_name

/-- Model of Python `str.endswith` (equivalently `String.endsWith`),
stated over the character lists so that it evaluates by kernel
reduction. -/
def strEndsWith (s suf : String) : Bool :=
  List.isSuffixOf suf.data s.data

/-- `util.coreutils_src_path`: join the Coreutils source directory with a
file name, appending `.bc` when `program` is true and the name does not
already end in `.bc`. -/
def coreutils_src_path (coreutilsPath : String) (name : String) (program : Bool) : String :=
  let name2 := if program && !(strEndsWith name ".bc") then name ++ ".bc" else name
  pathJoin coreutilsPath name2

/-! ### runklee.py: data model -/

/-- `runklee.Solver` (supported KLEE SMT solvers). -/
inductive Solver
  | Z3
  | STP
deriving DecidableEq

/-- The `.value` string of a `Solver` member. -/
def Solver.value : Solver → String
  | .Z3 => "z3"
  | .STP => "stp"

/-- `runklee.SearchStrategy` (KLEE search strategies). -/
inductive SearchStrategy
  | DefaultHeuristic
  | Inputting
  | DFS
  | BFS
deriving DecidableEq

/-- The `.value` string of a `SearchStrategy` member. -/
def SearchStrategy.value : SearchStrategy → String
  | .DefaultHeuristic => "--search=random-path --search=nurs:covnew"
  | .Inputting => "--search=inputting"
  | .DFS => "--search=dfs"
  | .BFS => "--search=bfs"

/-- `runklee.KleeRunOptions`: the flat configuration record for one KLEE
run (fields in source order; the dataclass defaults are provided
separately by `default_options`). -/
structure KleeRunOptions where
  name : String
  dirName : String
  searchStrategy : SearchStrategy
  batchingInstrs : Option Int
  memory : Int
  solver : Solver
  cex : Bool
  independent : Bool
  branch : Bool
  timeToRun : Option Int
  instructions : Option Int
  removeOutput : Bool
  simplify : Bool
  solverTimeout : Option Int
  externalCalls : String
  dumpStates : Bool
  logFile : Option String
  debugDumpZ3File : Option String
  additionalOptions : String
  envFile : String
  runInDir : String
  simplifySymIndices : Bool
  writeCvcs : Bool
  writeCov : Bool
  outputModule : Bool
  disableInlining : Bool
  optimize : Bool
  useForkedSolver : Bool
  libc : String
  posixRuntime : Bool
  newStates : Bool
  maxSymArraySize : Int
  maxMemoryInhibit : Bool
  maxStaticForkPct : Int
  maxStaticSolvePct : Int
  maxStaticCpforkPct : Int
  switchType : String
  stateOutputFile : Option String
  trOutputFile : Option String
  stateInputFile : Option String
  trInputFile : Option String
deriving DecidableEq

/-- A `KleeRunOptions` built from the five required dataclass fields with
every other field at its dataclass default (the Python
`KleeRunOptions(name, dirName, searchStrategy, batchingInstrs, memory)`
constructor call). -/
def default_options (coreutilsPath : String) (name dirName : String)
    (searchStrategy : SearchStrategy) (batchingInstrs : Option Int) (memory : Int) :
    KleeRunOptions where
  name := name
  dirName := dirName
  searchStrategy := searchStrategy
  batchingInstrs := batchingInstrs
  memory := memory
  solver := .Z3
  cex := true
  independent := true
  branch := true
  timeToRun := none
  instructions := none
  removeOutput := true
  simplify := true
  solverTimeout := none
  externalCalls := "concrete"
  dumpStates := false
  logFile := none
  debugDumpZ3File := none
  additionalOptions := ""
  envFile := coreutils_src_path coreutilsPath "test.env" false
  runInDir := "/tmp/sandbox"
  simplifySymIndices := true
  writeCvcs := true
  writeCov := true
  outputModule := true
  disableInlining := true
  optimize := true
  useForkedSolver := true
  libc := "uclibc"
  posixRuntime := true
  newStates := true
  maxSymArraySize := 4096
  maxMemoryInhibit := false
  maxStaticForkPct := 1
  maxStaticSolvePct := 1
  maxStaticCpforkPct := 1
  switchType := "internal"
  stateOutputFile := none
  trOutputFile := none
  stateInputFile := none
  trInputFile := none

/-- `runklee.SYM_ARGS_EXCEPTIONS`: the eight Coreutils programs with
non-default symbolic-argument strings. -/
def SYM_ARGS_EXCEPTIONS : List (String × String) :=
  [("dd", "--sym-args 0 3 10 --sym-files 1 8 --sym-stdin 8 --sym-stdout"),
   ("dircolors", "--sym-args 0 3 10 --sym-files 2 12 --sym-stdin 12 --sym-stdout"),
   ("echo", "--sym-args 0 4 300 --sym-files 2 30 --sym-stdin 30 --sym-stdout"),
   ("expr", "--sym-args 0 1 10 --sym-args 0 3 2 --sym-stdout"),
   ("mknod", "--sym-args 0 1 10 --sym-args 0 3 2 --sym-files 1 8 --sym-stdin 8 --sym-stdout"),
   ("od", "--sym-args 0 3 10 --sym-files 2 12 --sym-stdin 12 --sym-stdout"),
   ("pathchk", "--sym-args 0 1 2 --sym-args 0 1 300 --sym-files 1 8 --sym-stdin 8 --sym-stdout"),
   ("printf", "--sym-args 0 3 10 --sym-files 2 12 --sym-stdin 12 --sym-stdout")]

/-- `runklee.sym_args_for_program`: `SYM_ARGS_EXCEPTIONS.get(name, default)`. -/
def sym_args_for_program (name : String) : String :=
  (SYM_ARGS_EXCEPTIONS.lookup name).getD
    "--sym-args 0 1 10 --sym-args 0 2 2 --sym-files 1 8 --sym-stdin 8 --sym-stdout"

/-! ### runklee.py: the command builder -/

/-- Python truthiness of an `Optional[int]`: `None` and `0` are falsy. -/
def pyTruthy : Option Int → Bool
  | none => false
  | some n => n != 0

/-- Python truthiness of a `str`, as used by `filter(bool, command)`:
only the empty string is falsy. -/
def pyBoolStr (s : String) : Bool :=
  decide (s ≠ "")

/-- Python `f"{b}"` for a `bool`. -/
def pyBool (b : Bool) : String :=
  if b then "True" else "False"

/-- The local helper `arg` inside `get_run_command`: `f"--{k}={v}"`. -/
def arg (k v : String) : String :=
  "--" ++ k ++ "=" ++ v

/-- The local helper `opt_arg` inside `get_run_command`: emit
`--key=(value or optional)` when `optional is not None`, otherwise the
empty string (which the final `filter(bool, ...)` drops). -/
def opt_arg (key : String) (optional : Option String) (value : Option String) : String :=
  match optional with
  | some o => arg key (value.getD o)
  | none => ""

/-- The `command` list literal built inside `get_run_command`, before
`filter(bool, ...)` removes the empty strings. -/
def command (kleeBinPath coreutilsPath : String) (o : KleeRunOptions) : List String :=
  [klee_exec_path kleeBinPath "klee",
   arg "env-file" o.envFile,
   arg "run-in-dir" o.runInDir,
   arg "output-dir" o.dirName,
   arg "solver-backend" o.solver.value,
   opt_arg "max-solver-time" (o.solverTimeout.map toString) none,
   arg "simplify-sym-indices" (pyBool o.simplifySymIndices),
   opt_arg "use-query-log" o.logFile (some "all:smt2"),
   arg "write-cvcs" (pyBool o.writeCvcs),
   arg "write-cov" (pyBool o.writeCov),
   arg "output-module" (pyBool o.outputModule),
   arg "max-memory" (toString o.memory),
   arg "disable-inlining" (pyBool o.disableInlining),
   arg "optimize" (pyBool o.optimize),
   arg "use-forked-solver" (pyBool o.useForkedSolver),
   arg "use-cex-cache" (pyBool o.cex),
   arg "use-independent-solver" (pyBool o.independent),
   arg "use-branch-cache" (pyBool o.branch),
   arg "rewrite-equalities" (pyBool o.simplify),
   arg "libc" o.libc,
   arg "posix-runtime" (pyBool o.posixRuntime),
   arg "external-calls" o.externalCalls,
   arg "only-output-states-covering-new" (pyBool o.newStates),
   arg "max-sym-array-size" (toString o.maxSymArraySize),
   arg "max-time" (toString (o.timeToRun.getD 0) ++ "s"),
   arg "watchdog" (pyBool (pyTruthy o.timeToRun)),
   arg "max-instructions" (toString (o.instructions.getD 0)),
   arg "max-memory-inhibit" (pyBool o.maxMemoryInhibit),
   arg "max-static-fork-pct" (toString o.maxStaticForkPct),
   arg "max-static-solve-pct" (toString o.maxStaticSolvePct),
   arg "max-static-cpfork-pct" (toString o.maxStaticCpforkPct),
   arg "switch-type" o.switchType,
   arg "dump-states-on-halt" (pyBool o.dumpStates),
   o.searchStrategy.value,
   opt_arg "use-batching-search" (o.batchingInstrs.map toString) (some "True"),
   opt_arg "batch-instructions" (o.batchingInstrs.map toString) none,
   opt_arg "debug-z3-dump-queries" o.debugDumpZ3File none,
   opt_arg "state-output" o.stateOutputFile none,
   opt_arg "tr-output" o.trOutputFile none,
   opt_arg "state-input" o.stateInputFile none,
   opt_arg "tr-input" o.trInputFile none,
   o.additionalOptions,
   coreutils_src_path coreutilsPath o.name true,
   sym_args_for_program o.name]

/-- `KleeRunner.get_run_command`: `assert o.timeToRun or o.instructions`
(modelled as returning `none` when the `AssertionError` is raised), then
the filtered command list. -/
def get_run_command (kleeBinPath coreutilsPath : String) (o : KleeRunOptions) :
    Option (List String) :=
  if pyTruthy o.timeToRun || pyTruthy o.instructions then
    some ((command kleeBinPath coreutilsPath o).filter pyBoolStr)
  else
    none

/-! ### kresult.py: value coercion

`KResult._parse_value` calls the Python builtins `int(value)` and
`float(value)`.  They are modelled below over `List Char`, restricted to
ASCII whitespace and ASCII digits (the CSV produced by `klee-stats` is
ASCII).  An accepted float literal is represented exactly: a finite value
becomes the rational it denotes (IEEE-754 rounding to the nearest double
is abstracted away), and `inf`/`nan` literals keep their own
constructors. -/

/-- ASCII whitespace, as stripped by Python's `int()`/`float()`. -/
def isPyWs (c : Char) : Bool :=
  c = ' ' || c = '\t' || c = '\n' || c = '\x0d' || c = '\x0b' || c = '\x0c'

/-- Strip leading and trailing ASCII whitespace. -/
def stripWs (l : List Char) : List Char :=
  ((l.dropWhile isPyWs).reverse.dropWhile isPyWs).reverse

/-- Accumulating scanner for a digit group with `_` separators: after an
initial digit, each further character is a digit or a `_` that must be
followed by a digit.  Returns the value and the number of digits read. -/
def digitGroupAux : Nat → Nat → List Char → Option (Nat × Nat)
  | acc, cnt, [] => some (acc, cnt)
  | acc, cnt, c :: rest =>
    if c.isDigit then
      digitGroupAux (acc * 10 + (c.toNat - 48)) (cnt + 1) rest
    else if c = '_' then
      match rest with
      | [] => none
      | d :: rest2 =>
        if d.isDigit then digitGroupAux (acc * 10 + (d.toNat - 48)) (cnt + 1) rest2
        else none
    else none

/-- A complete digit group `digit (digit | "_" digit)*`; yields its value
and its digit count. -/
def digitGroup : List Char → Option (Nat × Nat)
  | [] => none
  | c :: rest =>
    if c.isDigit then digitGroupAux (c.toNat - 48) 1 rest else none

/-- Model of the Python builtin `int(str)` (base 10): optional
whitespace, optional sign, a digit group with optional `_` separators. -/
def pyInt (s : String) : Option Int :=
  match stripWs s.data with
  | '+' :: rest => (digitGroup rest).map (fun p => (p.1 : Int))
  | '-' :: rest => (digitGroup rest).map (fun p => -(p.1 : Int))
  | l => (digitGroup l).map (fun p => (p.1 : Int))

/-- The value of a Python `float(str)` literal.  A finite literal is kept
exact as a decimal significand/exponent pair denoting
`sig * 10 ^ exp10` (IEEE-754 rounding to the nearest double is
abstracted away; the pair is not normalised, it is the literal as
written). -/
inductive PyFloat
  | finite (sig : ℤ) (exp10 : ℤ)
  | infinity (neg : Bool)
  | nan
deriving DecidableEq

/-- Split a character list at the first `e`/`E` (the exponent marker of a
float literal). -/
def splitOnExp : List Char → List Char × Option (List Char)
  | [] => ([], none)
  | c :: rest =>
    if c = 'e' ∨ c = 'E' then ([], some rest)
    else
      let p := splitOnExp rest
      (c :: p.1, p.2)

/-- Split a character list at the first `.` (the decimal point of a float
literal). -/
def splitOnDot : List Char → List Char × Option (List Char)
  | [] => ([], none)
  | c :: rest =>
    if c = '.' then ([], some rest)
    else
      let p := splitOnDot rest
      (c :: p.1, p.2)

/-- The mantissa of a float literal: `I`, `I.`, `I.F` or `.F` with `I`,
`F` digit groups; yields the unsigned significand and the decimal
exponent (`I.F` has value `significand * 10 ^ exp`). -/
def parseMantissa (l : List Char) : Option (ℕ × ℤ) :=
  match splitOnDot l with
  | (ip, none) => (digitGroup ip).map (fun p => (p.1, (0 : ℤ)))
  | ([], some []) => none
  | (ip, some []) => (digitGroup ip).map (fun p => (p.1, (0 : ℤ)))
  | ([], some fp) => (digitGroup fp).map (fun p => (p.1, -(p.2 : ℤ)))
  | (ip, some fp) =>
    match digitGroup ip, digitGroup fp with
    | some i, some f => some (i.1 * 10 ^ f.2 + f.1, -(f.2 : ℤ))
    | _, _ => none

/-- Strip one optional leading sign; returns whether it was `-`. -/
def stripSign : List Char → Bool × List Char
  | '+' :: rest => (false, rest)
  | '-' :: rest => (true, rest)
  | l => (false, l)

/-- Model of the Python builtin `float(str)`: optional whitespace and
sign, then `inf`/`infinity`/`nan` (case-insensitive) or a decimal
mantissa with optional exponent. -/
def pyFloat (s : String) : Option PyFloat :=
  let l := stripWs s.data
  if l = [] then none
  else
    let p := stripSign l
    let neg := p.1
    let low := p.2.map Char.toLower
    if low = "inf".data ∨ low = "infinity".data then some (.infinity neg)
    else if low = "nan".data then some .nan
    else
      let q := splitOnExp p.2
      match parseMantissa q.1 with
      | none => none
      | some m =>
        let sig : ℤ := if neg then -(m.1 : ℤ) else (m.1 : ℤ)
        match q.2 with
        | none => some (.finite sig m.2)
        | some e =>
          let pe := stripSign e
          (digitGroup pe.2).map (fun d =>
            .finite sig (m.2 + (if pe.1 then -(d.1 : ℤ) else (d.1 : ℤ))))

/-- A Python value as produced by `KResult._parse_value`. -/
inductive PyVal
  | int (n : ℤ)
  | float (f : PyFloat)
  | str (s : String)
deriving DecidableEq

/-- A raised Python exception relevant to this code. -/
inductive PyExc
  | typeError
  | assertionError
deriving DecidableEq

instance {ε α : Type} [DecidableEq ε] [DecidableEq α] : DecidableEq (Except ε α) :=
  fun x y =>
    match x, y with
    | .ok a, .ok b =>
      if h : a = b then .isTrue (by rw [h]) else .isFalse (by simp [h])
    | .error a, .error b =>
      if h : a = b then .isTrue (by rw [h]) else .isFalse (by simp [h])
    | .ok _, .error _ => .isFalse (by simp)
    | .error _, .ok _ => .isFalse (by simp)

/-! ### kresult.py: KResult -/

/-- `kresult.KResultField`: enumeration of KLEE result fields. -/
inductive KResultField
  | TIME | INSTRUCTIONS | ICOV_PERCENT | BCOV_PERCENT | ICOUNT
  | TSOLVER_PERCENT | ICOVERED | IUNCOVERED | BRANCHES | FULL_BRANCHES
  | PARTIAL_BRANCHES | EXTERNAL_CALLS | TUSER_SECONDS | TRESOLVE_SECONDS
  | TRESOLVE_PERCENT | TCEX_SECONDS | TCEX_PERCENT | TQUERY_SECONDS
  | TSOLVER_SECONDS | STATES | ACTIVE_STATES | MAX_ACTIVE_STATES
  | AVG_ACTIVE_STATES | INHIBITED_FORKS | QUERIES | SOLVER_QUERIES
  | SOLVER_QUERY_CONSTRUCTS | QCACHE_MISSES | QCACHE_HITS
  | QCEX_CACHE_MISSES | QCEX_CACHE_HITS | ALLOCATIONS | MEM_MIB
  | MAX_MEM_MIB | AVG_MEM_MIB | BR_CONDITIONAL | BR_INDIRECT | BR_SWITCH
  | BR_CALL | BR_MEM_OP | BR_RESOLVE_POINTER | BR_ALLOC | BR_REALLOC
  | BR_FREE | BR_GET_VAL | TERM_EXIT | TERM_EARLY | TERM_SOLVER_ERR
  | TERM_PROGR_ERR | TERM_USER_ERR | TERM_EXEC_ERR | TERM_EARLY_ALGO
  | TERM_EARLY_USER | TARRAY_HASH_SECONDS | TFORK_SECONDS | TFORK_PERCENT
  | TUSER_PERCENT
deriving DecidableEq

/-- The `.value` string (CSV column name) of a `KResultField` member. -/
def KResultField.value : KResultField → String
  | .TIME => "Time(s)"
  | .INSTRUCTIONS => "Instrs"
  | .ICOV_PERCENT => "ICov(%)"
  | .BCOV_PERCENT => "BCov(%)"
  | .ICOUNT => "ICount"
  | .TSOLVER_PERCENT => "TSolver(%)"
  | .ICOVERED => "ICovered"
  | .IUNCOVERED => "IUncovered"
  | .BRANCHES => "Branches"
  | .FULL_BRANCHES => "FullBranches"
  | .PARTIAL_BRANCHES => "PartialBranches"
  | .EXTERNAL_CALLS => "ExternalCalls"
  | .TUSER_SECONDS => "TUser(s)"
  | .TRESOLVE_SECONDS => "TResolve(s)"
  | .TRESOLVE_PERCENT => "TResolve(%)"
  | .TCEX_SECONDS => "TCex(s)"
  | .TCEX_PERCENT => "TCex(%)"
  | .TQUERY_SECONDS => "TQuery(s)"
  | .TSOLVER_SECONDS => "TSolver(s)"
  | .STATES => "States"
  | .ACTIVE_STATES => "ActiveStates"
  | .MAX_ACTIVE_STATES => "MaxActiveStates"
  | .AVG_ACTIVE_STATES => "AvgActiveStates"
  | .INHIBITED_FORKS => "InhibitedForks"
  | .QUERIES => "Queries"
  | .SOLVER_QUERIES => "SolverQueries"
  | .SOLVER_QUERY_CONSTRUCTS => "SolverQueryConstructs"
  | .QCACHE_MISSES => "QCacheMisses"
  | .QCACHE_HITS => "QCacheHits"
  | .QCEX_CACHE_MISSES => "QCexCacheMisses"
  | .QCEX_CACHE_HITS => "QCexCacheHits"
  | .ALLOCATIONS => "Allocations"
  | .MEM_MIB => "Mem(MiB)"
  | .MAX_MEM_MIB => "MaxMem(MiB)"
  | .AVG_MEM_MIB => "AvgMem(MiB)"
  | .BR_CONDITIONAL => "BrConditional"
  | .BR_INDIRECT => "BrIndirect"
  | .BR_SWITCH => "BrSwitch"
  | .BR_CALL => "BrCall"
  | .BR_MEM_OP => "BrMemOp"
  | .BR_RESOLVE_POINTER => "BrResolvePointer"
  | .BR_ALLOC => "BrAlloc"
  | .BR_REALLOC => "BrRealloc"
  | .BR_FREE => "BrFree"
  | .BR_GET_VAL => "BrGetVal"
  | .TERM_EXIT => "TermExit"
  | .TERM_EARLY => "TermEarly"
  | .TERM_SOLVER_ERR => "TermSolverErr"
  | .TERM_PROGR_ERR => "TermProgrErr"
  | .TERM_USER_ERR => "TermUserErr"
  | .TERM_EXEC_ERR => "TermExecErr"
  | .TERM_EARLY_ALGO => "TermEarlyAlgo"
  | .TERM_EARLY_USER => "TermEarlyUser"
  | .TARRAY_HASH_SECONDS => "TArrayHash(s)"
  | .TFORK_SECONDS => "TFork(s)"
  | .TFORK_PERCENT => "TFork(%)"
  | .TUSER_PERCENT => "TUser(%)"

/-- `kresult.KResult`: wraps the parsed CSV row.  The Python `dict` is
modelled as an association list with unique keys. -/
structure KResult where
  _data : List (String × String)
deriving DecidableEq

/-- `KResult._parse_value`, including its behaviour on the `None` that
`dict.get` returns for a missing column: `int(None)` raises `TypeError`,
which the `except ValueError` handlers do not catch. -/
def parse_value : Option String → Except PyExc PyVal
  | none => .error .typeError
  | some s =>
    match pyInt s with
    | some n => .ok (.int n)
    | none =>
      match pyFloat s with
      | some f => .ok (.float f)
      | none => .ok (.str s)

/-- `KResult.get`: look the field's `.value` up in the stored data and
parse the result. -/
def KResult.get (r : KResult) (field : KResultField) : Except PyExc PyVal :=
  parse_value (r._data.lookup field.value)

/-! ### util.py dict_from_csv and KResult.from_csv -/

/-- Splitting one CSV line at commas (the `csv` module's parse of a row
without quoting, stated over character lists so that it evaluates by
kernel reduction). -/
def splitCommaAux : List Char → List Char → List String
  | [], acc => [⟨acc.reverse⟩]
  | c :: rest, acc =>
    if c = ',' then ⟨acc.reverse⟩ :: splitCommaAux rest []
    else splitCommaAux rest (c :: acc)

/-- Split a CSV line at commas. -/
def splitComma (line : String) : List String :=
  splitCommaAux line.data []

/-- `util.dict_from_csv` on the lines of a CSV file, modelling
`csv.DictReader` (unquoted fields): the first line gives the field
names, every following non-blank line is one data row zipped with those
names (blank lines are skipped by the `csv` module). -/
def dict_from_csv (lines : List String) : List (List (String × String)) :=
  match lines with
  | [] => []
  | header :: rest =>
    let keys := splitComma header
    (rest.filter (fun l => decide (l ≠ ""))).map (fun line => keys.zip (splitComma line))

/-- `KResult.from_csv`: `assert len(data) == 1` then wrap the single
row; any other row count raises `AssertionError`. -/
def KResult.from_csv (lines : List String) : Except PyExc KResult :=
  match dict_from_csv lines with
  | [row] => .ok ⟨row⟩
  | _ => .error .assertionError

/-! ### Structure of the generated command

Every element that `get_run_command` keeps, other than the executable
path, the program path and the symbolic-argument string, has the shape
`key ++ "=" ++ value`.  `presentKeys`/`presentVals` enumerate, in slot
order, the keys and values of the flags a given configuration produces;
`masterKeys` is the full fixed slot order. -/

/-- A flag string split into its key and its value: `key ++ "=" ++ value`. -/
def combine (k v : String) : String :=
  k ++ "=" ++ v

/-- The part of a `SearchStrategy.value` string after the first `=`
(so that `value ss = combine "--search" (searchRest ss)`). -/
def searchRest : SearchStrategy → String
  | .DefaultHeuristic => "random-path --search=nurs:covnew"
  | .Inputting => "inputting"
  | .DFS => "dfs"
  | .BFS => "bfs"

/-- Keys contributed by an optional field: present only when the field
is set. -/
def optKeys {α : Type} : Option α → List String → List String
  | some _, ks => ks
  | none, _ => []

/-- Values contributed by an optional field: present only when the field
is set. -/
def optVals {α β : Type} : Option α → (α → List β) → List β
  | some a, f => f a
  | none, _ => []

/-- Flag keys of the unconditional slots before `max-solver-time`. -/
def fixedKeysA : List String :=
  ["--env-file", "--run-in-dir", "--output-dir", "--solver-backend"]

/-- Flag key of the unconditional slot between `max-solver-time` and
`use-query-log`. -/
def fixedKeysB : List String :=
  ["--simplify-sym-indices"]

/-- Flag keys of the unconditional slots between `use-query-log` and
`use-batching-search` (the search-strategy slot always carries key
`--search`). -/
def fixedKeysC : List String :=
  ["--write-cvcs", "--write-cov", "--output-module", "--max-memory",
   "--disable-inlining", "--optimize", "--use-forked-solver", "--use-cex-cache",
   "--use-independent-solver", "--use-branch-cache", "--rewrite-equalities",
   "--libc", "--posix-runtime", "--external-calls",
   "--only-output-states-covering-new", "--max-sym-array-size", "--max-time",
   "--watchdog", "--max-instructions", "--max-memory-inhibit",
   "--max-static-fork-pct", "--max-static-solve-pct", "--max-static-cpfork-pct",
   "--switch-type", "--dump-states-on-halt", "--search"]

/-- The flag keys a configuration's command carries, in slot order. -/
def presentKeys (o : KleeRunOptions) : List String :=
  fixedKeysA ++
    (optKeys o.solverTimeout ["--max-solver-time"] ++
      (fixedKeysB ++
        (optKeys o.logFile ["--use-query-log"] ++
          (fixedKeysC ++
            (optKeys o.batchingInstrs ["--use-batching-search", "--batch-instructions"] ++
              (optKeys o.debugDumpZ3File ["--debug-z3-dump-queries"] ++
                (optKeys o.stateOutputFile ["--state-output"] ++
                  (optKeys o.trOutputFile ["--tr-output"] ++
                    (optKeys o.stateInputFile ["--state-input"] ++
                      optKeys o.trInputFile ["--tr-input"])))))))))

/-- The flag values a configuration's command carries, in slot order
(matching `presentKeys`). -/
def presentVals (o : KleeRunOptions) : List String :=
  [o.envFile, o.runInDir, o.dirName, o.solver.value] ++
    (optVals o.solverTimeout (fun t => [toString t]) ++
      ([pyBool o.simplifySymIndices] ++
        (optVals o.logFile (fun _ => ["all:smt2"]) ++
          ([pyBool o.writeCvcs, pyBool o.writeCov, pyBool o.outputModule,
            toString o.memory, pyBool o.disableInlining, pyBool o.optimize,
            pyBool o.useForkedSolver, pyBool o.cex, pyBool o.independent,
            pyBool o.branch, pyBool o.simplify, o.libc, pyBool o.posixRuntime,
            o.externalCalls, pyBool o.newStates, toString o.maxSymArraySize,
            toString (o.timeToRun.getD 0) ++ "s", pyBool (pyTruthy o.timeToRun),
            toString (o.instructions.getD 0), pyBool o.maxMemoryInhibit,
            toString o.maxStaticForkPct, toString o.maxStaticSolvePct,
            toString o.maxStaticCpforkPct, o.switchType, pyBool o.dumpStates,
            searchRest o.searchStrategy] ++
            (optVals o.batchingInstrs (fun n => ["True", toString n]) ++
              (optVals o.debugDumpZ3File (fun f => [f]) ++
                (optVals o.stateOutputFile (fun f => [f]) ++
                  (optVals o.trOutputFile (fun f => [f]) ++
                    (optVals o.stateInputFile (fun f => [f]) ++
                      optVals o.trInputFile (fun f => [f]))))))))))

/-- The fixed overall order of all flag keys the builder can emit. -/
def masterKeys : List String :=
  fixedKeysA ++
    (["--max-solver-time"] ++
      (fixedKeysB ++
        (["--use-query-log"] ++
          (fixedKeysC ++
            (["--use-batching-search", "--batch-instructions"] ++
              (["--debug-z3-dump-queries"] ++
                (["--state-output"] ++
                  (["--tr-output"] ++
                    (["--state-input"] ++
                      ["--tr-input"])))))))))

/-- An example configuration with every optional flag-producing field
set, used to exercise the theorems on concrete input. -/
def optsAllSet : KleeRunOptions :=
  { default_options "/c" "echo" "out-dir" .DFS (some 800) 2000 with
    timeToRun := some 60
    solverTimeout := some 30
    logFile := some "log.smt2"
    debugDumpZ3File := some "debug.z3"
    stateOutputFile := some "state.out"
    trOutputFile := some "tr.out"
    stateInputFile := some "state.in"
    trInputFile := some "tr.in" }

/-- An example configuration with every optional flag-producing field
unset and only the instruction limit set. -/
def optsAllUnset : KleeRunOptions :=
  { default_options "/c" "echo" "out-dir" .DFS none 2000 with
    instructions := some 1000 }

/-- An example configuration whose `envFile` is the literal `"z"`. -/
def optsEnvZ : KleeRunOptions :=
  { default_options "/c" "echo" "out" .DFS none 2000 with
    timeToRun := some 60
    envFile := "z" }

/-- An example configuration whose `additionalOptions` string is the
flag text `--env-file=z`. -/
def optsAddZ : KleeRunOptions :=
  { default_options "/c" "echo" "out" .DFS none 2000 with
    timeToRun := some 60
    additionalOptions := "--env-file=z" }

/-! ### Helper lemmas -/

theorem append_ne_empty_right (a b : String) (h : b ≠ "") : a ++ b ≠ "" := by
  intro he
  apply h
  have hd := congrArg String.data he
  rw [String.data_append] at hd
  exact String.ext (List.append_eq_nil.mp hd).2

theorem append_ne_empty_left (a b : String) (h : a ≠ "") : a ++ b ≠ "" := by
  intro he
  apply h
  have hd := congrArg String.data he
  rw [String.data_append] at hd
  exact String.ext (List.append_eq_nil.mp hd).1

theorem append_eq_empty_left {a : String} (b : String) (h : a ≠ "") : (a ++ b = "") = False :=
  eq_false (append_ne_empty_left a b h)

theorem searchValue_eq_empty (ss : SearchStrategy) : (ss.value = "") = False :=
  eq_false (by cases ss <;> decide)

theorem pathJoin_ne_empty (a b : String) (h : b ≠ "") : pathJoin a b ≠ "" := by
  unfold pathJoin
  split
  · exact h
  split
  · exact append_ne_empty_right a b h
  · exact append_ne_empty_right _ b h

theorem arg_ne_empty (k v : String) : arg k v ≠ "" := by
  intro h
  have h2 := congrArg String.length h
  simp [arg, String.length_append] at h2
  exact absurd h2.1.1.1 (by decide)

theorem arg_eq_empty (k v : String) : ("--" ++ k ++ "=" ++ v = "") = False :=
  eq_false (arg_ne_empty k v)

theorem pyBoolStr_of_ne {s : String} (h : s ≠ "") : pyBoolStr s = true := by
  simp [pyBoolStr, h]

theorem pyBoolStr_arg (k v : String) : pyBoolStr (arg k v) = true :=
  pyBoolStr_of_ne (arg_ne_empty k v)

theorem pyBoolStr_search (ss : SearchStrategy) : pyBoolStr ss.value = true := by
  cases ss <;> decide

theorem searchValue_eq_combine (ss : SearchStrategy) :
    ss.value = combine "--search" (searchRest ss) := by
  cases ss <;> rfl

theorem coreutils_src_path_ne_empty (cs name : String) :
    coreutils_src_path cs name true ≠ "" := by
  unfold coreutils_src_path
  apply pathJoin_ne_empty
  by_cases hb : strEndsWith name ".bc"
  · rw [if_neg (by simp [hb])]
    intro he
    rw [he] at hb
    exact absurd hb (by decide)
  · rw [if_pos (by simp [hb])]
    exact append_ne_empty_right _ _ (by decide)

theorem lookup_mem_values {α β : Type} [BEq α] (k : α) (l : List (α × β)) (v : β)
    (h : List.lookup k l = some v) : v ∈ l.map Prod.snd := by
  induction l with
  | nil => simp [List.lookup] at h
  | cons p t ih =>
    obtain ⟨a, b⟩ := p
    rw [List.lookup] at h
    cases hkb : (k == a) with
    | true =>
      rw [hkb] at h
      injection h with h2
      subst h2
      exact List.mem_cons_self ..
    | false =>
      rw [hkb] at h
      exact List.mem_cons_of_mem _ (ih h)

theorem sym_args_mem (name : String) :
    sym_args_for_program name ∈
      "--sym-args 0 1 10 --sym-args 0 2 2 --sym-files 1 8 --sym-stdin 8 --sym-stdout" ::
        SYM_ARGS_EXCEPTIONS.map Prod.snd := by
  unfold sym_args_for_program
  cases hl : List.lookup name SYM_ARGS_EXCEPTIONS with
  | none => simp
  | some v =>
    simp only [Option.getD_some]
    exact List.mem_cons_of_mem _ (lookup_mem_values name _ v hl)

theorem sym_args_ne_empty (name : String) : sym_args_for_program name ≠ "" := by
  intro he
  have h := sym_args_mem name
  rw [he] at h
  revert h
  decide

theorem sym_args_no_eq (name : String) : '=' ∉ (sym_args_for_program name).data := by
  intro he
  have h := sym_args_mem name
  have h2 : ∀ s ∈ "--sym-args 0 1 10 --sym-args 0 2 2 --sym-files 1 8 --sym-stdin 8 --sym-stdout" ::
      SYM_ARGS_EXCEPTIONS.map Prod.snd, '=' ∉ s.data := by decide
  exact h2 _ h he

theorem klee_exec_ne_empty (kb : String) : klee_exec_path kb "klee" ≠ "" :=
  pathJoin_ne_empty kb "klee" (by decide)

theorem command_eq_append (kb cs : String) (o : KleeRunOptions) :
    command kb cs o =
      [klee_exec_path kb "klee"] ++
        ([arg "env-file" o.envFile, arg "run-in-dir" o.runInDir,
          arg "output-dir" o.dirName, arg "solver-backend" o.solver.value] ++
          ([opt_arg "max-solver-time" (o.solverTimeout.map toString) none] ++
            ([arg "simplify-sym-indices" (pyBool o.simplifySymIndices)] ++
              ([opt_arg "use-query-log" o.logFile (some "all:smt2")] ++
                ([arg "write-cvcs" (pyBool o.writeCvcs), arg "write-cov" (pyBool o.writeCov),
                  arg "output-module" (pyBool o.outputModule),
                  arg "max-memory" (toString o.memory),
                  arg "disable-inlining" (pyBool o.disableInlining),
                  arg "optimize" (pyBool o.optimize),
                  arg "use-forked-solver" (pyBool o.useForkedSolver),
                  arg "use-cex-cache" (pyBool o.cex),
                  arg "use-independent-solver" (pyBool o.independent),
                  arg "use-branch-cache" (pyBool o.branch),
                  arg "rewrite-equalities" (pyBool o.simplify),
                  arg "libc" o.libc,
                  arg "posix-runtime" (pyBool o.posixRuntime),
                  arg "external-calls" o.externalCalls,
                  arg "only-output-states-covering-new" (pyBool o.newStates),
                  arg "max-sym-array-size" (toString o.maxSymArraySize),
                  arg "max-time" (toString (o.timeToRun.getD 0) ++ "s"),
                  arg "watchdog" (pyBool (pyTruthy o.timeToRun)),
                  arg "max-instructions" (toString (o.instructions.getD 0)),
                  arg "max-memory-inhibit" (pyBool o.maxMemoryInhibit),
                  arg "max-static-fork-pct" (toString o.maxStaticForkPct),
                  arg "max-static-solve-pct" (toString o.maxStaticSolvePct),
                  arg "max-static-cpfork-pct" (toString o.maxStaticCpforkPct),
                  arg "switch-type" o.switchType,
                  arg "dump-states-on-halt" (pyBool o.dumpStates),
                  o.searchStrategy.value] ++
                  ([opt_arg "use-batching-search" (o.batchingInstrs.map toString) (some "True"),
                    opt_arg "batch-instructions" (o.batchingInstrs.map toString) none] ++
                    ([opt_arg "debug-z3-dump-queries" o.debugDumpZ3File none] ++
                      ([opt_arg "state-output" o.stateOutputFile none] ++
                        ([opt_arg "tr-output" o.trOutputFile none] ++
                          ([opt_arg "state-input" o.stateInputFile none] ++
                            ([opt_arg "tr-input" o.trInputFile none] ++
                              ([o.additionalOptions] ++
                                [coreutils_src_path cs o.name true,
                                 sym_args_for_program o.name])))))))))))) :=
  rfl

theorem filter_seg_fixed4 (ef rid dn : String) (sv : Solver) :
    List.filter pyBoolStr
        [arg "env-file" ef, arg "run-in-dir" rid, arg "output-dir" dn,
         arg "solver-backend" sv.value] =
      List.zipWith combine fixedKeysA [ef, rid, dn, sv.value] := by
  simp [List.filter_cons, pyBoolStr, arg, combine, opt_arg, optKeys, optVals,
    append_eq_empty_left, arg_eq_empty, searchValue_eq_empty, searchValue_eq_combine,
    fixedKeysA, fixedKeysB, fixedKeysC]

theorem pyBoolStr_empty : pyBoolStr "" = false := rfl

theorem filter_seg_arg1 (k v : String) :
    List.filter pyBoolStr [arg k v] = List.zipWith combine ["--" ++ k] [v] := by
  simp [List.filter_cons, pyBoolStr, arg, combine, opt_arg, optKeys, optVals,
    append_eq_empty_left, arg_eq_empty, searchValue_eq_empty, searchValue_eq_combine,
    fixedKeysA, fixedKeysB, fixedKeysC]

theorem filter_seg_optInt (key : String) (x : Option Int) :
    List.filter pyBoolStr [opt_arg key (x.map toString) none] =
      List.zipWith combine (optKeys x ["--" ++ key]) (optVals x (fun t => [toString t])) := by
  cases x <;> simp [List.filter_cons, pyBoolStr, arg, combine, opt_arg, optKeys, optVals,
    append_eq_empty_left, arg_eq_empty, searchValue_eq_empty, searchValue_eq_combine,
    fixedKeysA, fixedKeysB, fixedKeysC]

theorem filter_seg_optQueryLog (x : Option String) :
    List.filter pyBoolStr [opt_arg "use-query-log" x (some "all:smt2")] =
      List.zipWith combine (optKeys x ["--use-query-log"])
        (optVals x (fun _ => ["all:smt2"])) := by
  cases x <;> simp [List.filter_cons, pyBoolStr, arg, combine, opt_arg, optKeys, optVals,
    append_eq_empty_left, arg_eq_empty, searchValue_eq_empty, searchValue_eq_combine,
    fixedKeysA, fixedKeysB, fixedKeysC]

theorem filter_seg_optStr (key : String) (x : Option String) :
    List.filter pyBoolStr [opt_arg key x none] =
      List.zipWith combine (optKeys x ["--" ++ key]) (optVals x (fun f => [f])) := by
  cases x <;> simp [List.filter_cons, pyBoolStr, arg, combine, opt_arg, optKeys, optVals,
    append_eq_empty_left, arg_eq_empty, searchValue_eq_empty, searchValue_eq_combine,
    fixedKeysA, fixedKeysB, fixedKeysC]

theorem filter_seg_batching (x : Option Int) :
    List.filter pyBoolStr
        [opt_arg "use-batching-search" (x.map toString) (some "True"),
         opt_arg "batch-instructions" (x.map toString) none] =
      List.zipWith combine (optKeys x ["--use-batching-search", "--batch-instructions"])
        (optVals x (fun n => ["True", toString n])) := by
  cases x <;> simp [List.filter_cons, pyBoolStr, arg, combine, opt_arg, optKeys, optVals,
    append_eq_empty_left, arg_eq_empty, searchValue_eq_empty, searchValue_eq_combine,
    fixedKeysA, fixedKeysB, fixedKeysC]

theorem filter_seg_fixed26 (o : KleeRunOptions) :
    List.filter pyBoolStr
        [arg "write-cvcs" (pyBool o.writeCvcs), arg "write-cov" (pyBool o.writeCov),
         arg "output-module" (pyBool o.outputModule), arg "max-memory" (toString o.memory),
         arg "disable-inlining" (pyBool o.disableInlining), arg "optimize" (pyBool o.optimize),
         arg "use-forked-solver" (pyBool o.useForkedSolver), arg "use-cex-cache" (pyBool o.cex),
         arg "use-independent-solver" (pyBool o.independent),
         arg "use-branch-cache" (pyBool o.branch), arg "rewrite-equalities" (pyBool o.simplify),
         arg "libc" o.libc, arg "posix-runtime" (pyBool o.posixRuntime),
         arg "external-calls" o.externalCalls,
         arg "only-output-states-covering-new" (pyBool o.newStates),
         arg "max-sym-array-size" (toString o.maxSymArraySize),
         arg "max-time" (toString (o.timeToRun.getD 0) ++ "s"),
         arg "watchdog" (pyBool (pyTruthy o.timeToRun)),
         arg "max-instructions" (toString (o.instructions.getD 0)),
         arg "max-memory-inhibit" (pyBool o.maxMemoryInhibit),
         arg "max-static-fork-pct" (toString o.maxStaticForkPct),
         arg "max-static-solve-pct" (toString o.maxStaticSolvePct),
         arg "max-static-cpfork-pct" (toString o.maxStaticCpforkPct),
         arg "switch-type" o.switchType, arg "dump-states-on-halt" (pyBool o.dumpStates),
         o.searchStrategy.value] =
      List.zipWith combine fixedKeysC
        [pyBool o.writeCvcs, pyBool o.writeCov, pyBool o.outputModule, toString o.memory,
         pyBool o.disableInlining, pyBool o.optimize, pyBool o.useForkedSolver, pyBool o.cex,
         pyBool o.independent, pyBool o.branch, pyBool o.simplify, o.libc,
         pyBool o.posixRuntime, o.externalCalls, pyBool o.newStates,
         toString o.maxSymArraySize, toString (o.timeToRun.getD 0) ++ "s",
         pyBool (pyTruthy o.timeToRun), toString (o.instructions.getD 0),
         pyBool o.maxMemoryInhibit, toString o.maxStaticForkPct, toString o.maxStaticSolvePct,
         toString o.maxStaticCpforkPct, o.switchType, pyBool o.dumpStates,
         searchRest o.searchStrategy] := by
  simp [List.filter_cons, pyBoolStr, arg, combine, opt_arg, optKeys, optVals,
    append_eq_empty_left, arg_eq_empty, searchValue_eq_empty, searchValue_eq_combine,
    fixedKeysA, fixedKeysB, fixedKeysC]

theorem filter_tail (cs name : String) :
    List.filter pyBoolStr [coreutils_src_path cs name true, sym_args_for_program name] =
      [coreutils_src_path cs name true, sym_args_for_program name] := by
  simp [List.filter_cons, pyBoolStr_of_ne (coreutils_src_path_ne_empty cs name),
    pyBoolStr_of_ne (sym_args_ne_empty name)]

theorem length_optKeys_optVals {α β : Type} (x : Option α) (ks : List String)
    (f : α → List β) (h : ∀ a, (f a).length = ks.length) :
    (optKeys x ks).length = (optVals x f).length := by
  cases x <;> simp [optKeys, optVals, h]

/-- The full shape of a generated command when `additionalOptions` is
empty: the KLEE executable, then the flags (each a key/value pair, keys
given by `presentKeys`), then the program's bitcode path and its
symbolic-argument string. -/
theorem run_command_structure (kb cs : String) (o : KleeRunOptions)
    (hadd : o.additionalOptions = "") :
    (command kb cs o).filter pyBoolStr =
      klee_exec_path kb "klee" ::
        (List.zipWith combine (presentKeys o) (presentVals o) ++
          [coreutils_src_path cs o.name true, sym_args_for_program o.name]) := by
  rw [command_eq_append kb cs o, hadd]
  simp only [List.filter_append]
  rw [filter_seg_fixed4, filter_seg_optInt "max-solver-time" o.solverTimeout,
    filter_seg_arg1 "simplify-sym-indices", filter_seg_optQueryLog o.logFile,
    filter_seg_fixed26, filter_seg_batching o.batchingInstrs,
    filter_seg_optStr "debug-z3-dump-queries" o.debugDumpZ3File,
    filter_seg_optStr "state-output" o.stateOutputFile,
    filter_seg_optStr "tr-output" o.trOutputFile,
    filter_seg_optStr "state-input" o.stateInputFile,
    filter_seg_optStr "tr-input" o.trInputFile,
    filter_tail cs o.name]
  have l1 : fixedKeysA.length =
      ([o.envFile, o.runInDir, o.dirName, o.solver.value]).length := rfl
  have l2 : (optKeys o.solverTimeout ["--max-solver-time"]).length =
      (optVals o.solverTimeout (fun t => [toString t])).length :=
    length_optKeys_optVals _ _ _ (fun a => rfl)
  have l3 : fixedKeysB.length = ([pyBool o.simplifySymIndices]).length := rfl
  have l4 : (optKeys o.logFile ["--use-query-log"]).length =
      (optVals o.logFile (fun _ => ["all:smt2"])).length :=
    length_optKeys_optVals _ _ _ (fun a => rfl)
  have l5 : fixedKeysC.length =
      ([pyBool o.writeCvcs, pyBool o.writeCov, pyBool o.outputModule, toString o.memory,
        pyBool o.disableInlining, pyBool o.optimize, pyBool o.useForkedSolver, pyBool o.cex,
        pyBool o.independent, pyBool o.branch, pyBool o.simplify, o.libc,
        pyBool o.posixRuntime, o.externalCalls, pyBool o.newStates,
        toString o.maxSymArraySize, toString (o.timeToRun.getD 0) ++ "s",
        pyBool (pyTruthy o.timeToRun), toString (o.instructions.getD 0),
        pyBool o.maxMemoryInhibit, toString o.maxStaticForkPct, toString o.maxStaticSolvePct,
        toString o.maxStaticCpforkPct, o.switchType, pyBool o.dumpStates,
        searchRest o.searchStrategy]).length := rfl
  have l6 : (optKeys o.batchingInstrs ["--use-batching-search", "--batch-instructions"]).length =
      (optVals o.batchingInstrs (fun n => ["True", toString n])).length :=
    length_optKeys_optVals _ _ _ (fun a => rfl)
  have l7 : (optKeys o.debugDumpZ3File ["--debug-z3-dump-queries"]).length =
      (optVals o.debugDumpZ3File (fun f => [f])).length :=
    length_optKeys_optVals _ _ _ (fun a => rfl)
  have l8 : (optKeys o.stateOutputFile ["--state-output"]).length =
      (optVals o.stateOutputFile (fun f => [f])).length :=
    length_optKeys_optVals _ _ _ (fun a => rfl)
  have l9 : (optKeys o.trOutputFile ["--tr-output"]).length =
      (optVals o.trOutputFile (fun f => [f])).length :=
    length_optKeys_optVals _ _ _ (fun a => rfl)
  have l10 : (optKeys o.stateInputFile ["--state-input"]).length =
      (optVals o.stateInputFile (fun f => [f])).length :=
    length_optKeys_optVals _ _ _ (fun a => rfl)
  simp only [presentKeys, presentVals]
  rw [List.zipWith_append _ _ _ _ _ l1, List.zipWith_append _ _ _ _ _ l2,
    List.zipWith_append _ _ _ _ _ l3, List.zipWith_append _ _ _ _ _ l4,
    List.zipWith_append _ _ _ _ _ l5, List.zipWith_append _ _ _ _ _ l6,
    List.zipWith_append _ _ _ _ _ l7, List.zipWith_append _ _ _ _ _ l8,
    List.zipWith_append _ _ _ _ _ l9, List.zipWith_append _ _ _ _ _ l10]
  simp [List.filter_cons, pyBoolStr, eq_false (klee_exec_ne_empty kb),
    fixedKeysA, fixedKeysB, fixedKeysC, List.append_assoc]

theorem optKeys_sublist {α : Type} (x : Option α) (ks : List String) :
    List.Sublist (optKeys x ks) ks := by
  cases x
  · exact List.nil_sublist ks
  · exact List.Sublist.refl ks

theorem presentKeys_sublist (o : KleeRunOptions) :
    List.Sublist (presentKeys o) masterKeys := by
  unfold presentKeys masterKeys
  refine List.Sublist.append (List.Sublist.refl _) ?_
  refine List.Sublist.append (optKeys_sublist _ _) ?_
  refine List.Sublist.append (List.Sublist.refl _) ?_
  refine List.Sublist.append (optKeys_sublist _ _) ?_
  refine List.Sublist.append (List.Sublist.refl _) ?_
  refine List.Sublist.append (optKeys_sublist _ _) ?_
  refine List.Sublist.append (optKeys_sublist _ _) ?_
  refine List.Sublist.append (optKeys_sublist _ _) ?_
  refine List.Sublist.append (optKeys_sublist _ _) ?_
  exact List.Sublist.append (optKeys_sublist _ _) (optKeys_sublist _ _)

theorem cmd_eq_of_run {kb cs : String} {o : KleeRunOptions} {cmd : List String}
    (h : get_run_command kb cs o = some cmd) :
    cmd = (command kb cs o).filter pyBoolStr := by
  unfold get_run_command at h
  split at h
  · injection h with h2
    exact h2.symm
  · exact Option.noConfusion h

theorem mem_of_run {kb cs : String} {o : KleeRunOptions} {cmd : List String}
    (h : get_run_command kb cs o = some cmd) {s : String} (hs : s ≠ "")
    (hmem : s ∈ command kb cs o) : s ∈ cmd := by
  rw [cmd_eq_of_run h]
  exact List.mem_filter.mpr ⟨hmem, pyBoolStr_of_ne hs⟩

theorem eq_split_unique : ∀ (a b x y : List Char), '=' ∉ a → '=' ∉ b →
    a ++ '=' :: x = b ++ '=' :: y → a = b := by
  intro a
  induction a with
  | nil =>
    intro b x y _ hb he
    cases b with
    | nil => rfl
    | cons d s =>
      rw [List.nil_append] at he
      injection he with h1 h2
      exact absurd (by rw [← h1]; exact List.mem_cons_self _ _) hb
  | cons c t ih =>
    intro b x y ha hb he
    cases b with
    | nil =>
      rw [List.nil_append] at he
      injection he with h1 h2
      exact absurd (by rw [h1]; exact List.mem_cons_self _ _) ha
    | cons d s =>
      injection he with h1 h2
      rw [h1]
      have ha2 : '=' ∉ t := fun hm => ha (List.mem_cons_of_mem _ hm)
      have hb2 : '=' ∉ s := fun hm => hb (List.mem_cons_of_mem _ hm)
      rw [ih s x y ha2 hb2 h2]

theorem combine_data (k v : String) : (combine k v).data = k.data ++ '=' :: v.data := by
  simp [combine, String.data_append]

theorem combine_key_eq {k1 v1 k2 v2 : String} (h1 : '=' ∉ k1.data) (h2 : '=' ∉ k2.data)
    (he : combine k1 v1 = combine k2 v2) : k1 = k2 := by
  have hd := congrArg String.data he
  rw [combine_data, combine_data] at hd
  exact String.ext (eq_split_unique _ _ _ _ h1 h2 hd)

theorem combine_not_mem_zipWith {key v : String} (hkey : '=' ∉ key.data) :
    ∀ (ks vs : List String), (∀ k ∈ ks, '=' ∉ k.data) → key ∉ ks →
      combine key v ∉ List.zipWith combine ks vs := by
  intro ks
  induction ks with
  | nil => intro vs _ _; simp
  | cons k t ih =>
    intro vs hks hmem
    cases vs with
    | nil => simp
    | cons w ws =>
      intro hin
      rcases List.mem_cons.mp hin with he | hin2
      · have hk : '=' ∉ k.data := hks k (List.mem_cons_self _ _)
        have h2 := combine_key_eq hkey hk he
        exact hmem (by rw [h2]; exact List.mem_cons_self _ _)
      · exact ih ws (fun a ha => hks a (List.mem_cons_of_mem _ ha))
          (fun hm => hmem (List.mem_cons_of_mem _ hm)) hin2

theorem eq_mem_combine_data (k v : String) : '=' ∈ (combine k v).data := by
  rw [combine_data]
  exact List.mem_append_right _ (List.mem_cons_self _ _)

theorem combine_ne_of_no_eq {x : String} (hx : '=' ∉ x.data) (k v : String) :
    combine k v ≠ x := by
  intro he
  exact hx (he ▸ eq_mem_combine_data k v)

theorem no_eq_klee_exec (kb : String) (hkb : '=' ∉ kb.data) :
    '=' ∉ (klee_exec_path kb "klee").data := by
  unfold klee_exec_path pathJoin
  rw [if_neg (by decide)]
  split
  · intro hm
    rw [String.data_append] at hm
    rcases List.mem_append.mp hm with h | h
    · exact hkb h
    · exact absurd h (by decide)
  · intro hm
    rw [String.data_append, String.data_append] at hm
    rcases List.mem_append.mp hm with h | h
    · rcases List.mem_append.mp h with h2 | h2
      · exact hkb h2
      · exact absurd h2 (by decide)
    · exact absurd h (by decide)

theorem pathJoin_head_slash (a b : String) (ha : a.data.head? = some '/') :
    (pathJoin a b).data.head? = some '/' := by
  obtain ⟨t, ht⟩ : ∃ t, a.data = '/' :: t := by
    cases hd : a.data with
    | nil => rw [hd] at ha; cases ha
    | cons c s =>
      rw [hd] at ha
      injection ha with h1
      exact ⟨s, by rw [h1]⟩
  unfold pathJoin
  split
  · rename_i h
    exact h
  split
  · rw [String.data_append, ht]
    rfl
  · rw [String.data_append, String.data_append, ht]
    rfl

theorem coreutils_head_slash (cs name : String) (hcs : cs.data.head? = some '/') :
    (coreutils_src_path cs name true).data.head? = some '/' := by
  unfold coreutils_src_path
  exact pathJoin_head_slash cs _ hcs

theorem combine_head {k : String} (v : String) {c : Char} (h : k.data.head? = some c) :
    (combine k v).data.head? = some c := by
  obtain ⟨t, ht⟩ : ∃ t, k.data = c :: t := by
    cases hd : k.data with
    | nil => rw [hd] at h; cases h
    | cons a s =>
      rw [hd] at h
      injection h with h1
      exact ⟨s, by rw [h1]⟩
  rw [combine_data, ht]
  rfl

theorem ne_of_data_head {x y : String} {cx cy : Char} (hx : x.data.head? = some cx)
    (hy : y.data.head? = some cy) (hne : cx ≠ cy) : x ≠ y := by
  intro he
  rw [he, hy] at hx
  injection hx with h1
  exact hne h1.symm

theorem masterKeys_no_eq : ∀ k ∈ masterKeys, '=' ∉ k.data := by
  decide

theorem presentKeys_no_eq (o : KleeRunOptions) : ∀ k ∈ presentKeys o, '=' ∉ k.data :=
  fun k hk => masterKeys_no_eq k ((presentKeys_sublist o).subset hk)

theorem mem_optKeys {α : Type} (a : String) (x : Option α) (ks : List String) :
    a ∈ optKeys x ks ↔ x.isSome ∧ a ∈ ks := by
  cases x <;> simp [optKeys]

theorem key_absent_solverTimeout (o : KleeRunOptions) (h : o.solverTimeout = none) :
    "--max-solver-time" ∉ presentKeys o := by
  simp [presentKeys, h, mem_optKeys, fixedKeysA, fixedKeysB, fixedKeysC]

theorem key_absent_logFile (o : KleeRunOptions) (h : o.logFile = none) :
    "--use-query-log" ∉ presentKeys o := by
  simp [presentKeys, h, mem_optKeys, fixedKeysA, fixedKeysB, fixedKeysC]

theorem key_absent_batching1 (o : KleeRunOptions) (h : o.batchingInstrs = none) :
    "--use-batching-search" ∉ presentKeys o := by
  simp [presentKeys, h, mem_optKeys, fixedKeysA, fixedKeysB, fixedKeysC]

theorem key_absent_batching2 (o : KleeRunOptions) (h : o.batchingInstrs = none) :
    "--batch-instructions" ∉ presentKeys o := by
  simp [presentKeys, h, mem_optKeys, fixedKeysA, fixedKeysB, fixedKeysC]

theorem key_absent_debugDump (o : KleeRunOptions) (h : o.debugDumpZ3File = none) :
    "--debug-z3-dump-queries" ∉ presentKeys o := by
  simp [presentKeys, h, mem_optKeys, fixedKeysA, fixedKeysB, fixedKeysC]

theorem key_absent_stateOutput (o : KleeRunOptions) (h : o.stateOutputFile = none) :
    "--state-output" ∉ presentKeys o := by
  simp [presentKeys, h, mem_optKeys, fixedKeysA, fixedKeysB, fixedKeysC]

theorem key_absent_trOutput (o : KleeRunOptions) (h : o.trOutputFile = none) :
    "--tr-output" ∉ presentKeys o := by
  simp [presentKeys, h, mem_optKeys, fixedKeysA, fixedKeysB, fixedKeysC]

theorem key_absent_stateInput (o : KleeRunOptions) (h : o.stateInputFile = none) :
    "--state-input" ∉ presentKeys o := by
  simp [presentKeys, h, mem_optKeys, fixedKeysA, fixedKeysB, fixedKeysC]

theorem key_absent_trInput (o : KleeRunOptions) (h : o.trInputFile = none) :
    "--tr-input" ∉ presentKeys o := by
  simp [presentKeys, h, mem_optKeys, fixedKeysA, fixedKeysB, fixedKeysC]

/-- No flag string built from a key that the configuration does not
carry occurs anywhere in the generated command (for `=`-free key text
starting with `-`, an `=`-free KLEE bin path and an absolute Coreutils
source path). -/
theorem combine_not_mem_cmd (kb cs : String) (o : KleeRunOptions)
    (hkb : '=' ∉ kb.data) (hcs : cs.data.head? = some '/')
    (hadd : o.additionalOptions = "") {key : String} (v : String)
    (hkey : '=' ∉ key.data) (hhead : key.data.head? = some '-')
    (hnp : key ∉ presentKeys o) :
    combine key v ∉ (command kb cs o).filter pyBoolStr := by
  rw [run_command_structure kb cs o hadd]
  intro hin
  rcases List.mem_cons.mp hin with he | hin
  · exact combine_ne_of_no_eq (no_eq_klee_exec kb hkb) key v he
  rcases List.mem_append.mp hin with hz | ht
  · exact combine_not_mem_zipWith hkey _ _ (presentKeys_no_eq o) hnp hz
  rcases List.mem_cons.mp ht with he | ht
  · exact ne_of_data_head (combine_head v hhead) (coreutils_head_slash cs o.name hcs)
      (by decide) he
  rcases List.mem_cons.mp ht with he | hnil
  · exact combine_ne_of_no_eq (sym_args_no_eq o.name) key v he
  · exact absurd hnil (List.not_mem_nil _)

/-! ### Theorems: C1, C10 (runklee.py) -/

/-- C1: `get_run_command` enforces that time-to-run or instruction-count
must be set: when both `timeToRun` and `instructions` are unset (`None`
or `0`) the `assert o.timeToRun or o.instructions` raises
`AssertionError` (modelled as `none`); when at least one of them is a
non-zero value, the assertion passes and a command list is returned. -/
theorem get_run_command_assertion (kb cs : String) (o : KleeRunOptions) :
    ((o.timeToRun = none ∨ o.timeToRun = some 0) ∧
        (o.instructions = none ∨ o.instructions = some 0) →
      get_run_command kb cs o = none) ∧
    ((∃ t, o.timeToRun = some t ∧ t ≠ 0) ∨ (∃ n, o.instructions = some n ∧ n ≠ 0) →
      ∃ cmd, get_run_command kb cs o = some cmd) := by
  constructor
  · rintro ⟨h1, h2⟩
    have ht : pyTruthy o.timeToRun = false := by
      rcases h1 with h | h <;> simp [pyTruthy, h]
    have hi : pyTruthy o.instructions = false := by
      rcases h2 with h | h <;> simp [pyTruthy, h]
    simp [get_run_command, ht, hi]
  · rintro (⟨t, ht, ht0⟩ | ⟨n, hn, hn0⟩)
    · have htr : pyTruthy o.timeToRun = true := by simp [pyTruthy, ht, ht0]
      refine ⟨(command kb cs o).filter pyBoolStr, ?_⟩
      unfold get_run_command
      rw [htr]
      rfl
    · have hir : pyTruthy o.instructions = true := by simp [pyTruthy, hn, hn0]
      refine ⟨(command kb cs o).filter pyBoolStr, ?_⟩
      unfold get_run_command
      rw [hir, Bool.or_true]
      rfl

/-- Witness for C1: a default-constructed record (both limits unset)
raises, and the same record with `timeToRun = 60` yields a command. -/
theorem get_run_command_assertion_witness :
    get_run_command "/k" "/c" (default_options "/c" "echo" "o" .DFS none 2000) = none ∧
    ∃ cmd, get_run_command "/k" "/c"
        { default_options "/c" "echo" "o" .DFS none 2000 with timeToRun := some 60 } =
      some cmd :=
  ⟨(get_run_command_assertion "/k" "/c" _).1 ⟨Or.inl rfl, Or.inl rfl⟩,
   (get_run_command_assertion "/k" "/c" _).2 (Or.inl ⟨60, rfl, by decide⟩)⟩

/-- C10: `sym_args_for_program` is total and defaults uniformly: the
eight exception-table programs get their table entry, every other name
gets the fixed default string; no name raises. -/
theorem sym_args_for_program_spec (name : String) :
    sym_args_for_program name =
      if name = "dd" then
        "--sym-args 0 3 10 --sym-files 1 8 --sym-stdin 8 --sym-stdout"
      else if name = "dircolors" then
        "--sym-args 0 3 10 --sym-files 2 12 --sym-stdin 12 --sym-stdout"
      else if name = "echo" then
        "--sym-args 0 4 300 --sym-files 2 30 --sym-stdin 30 --sym-stdout"
      else if name = "expr" then
        "--sym-args 0 1 10 --sym-args 0 3 2 --sym-stdout"
      else if name = "mknod" then
        "--sym-args 0 1 10 --sym-args 0 3 2 --sym-files 1 8 --sym-stdin 8 --sym-stdout"
      else if name = "od" then
        "--sym-args 0 3 10 --sym-files 2 12 --sym-stdin 12 --sym-stdout"
      else if name = "pathchk" then
        "--sym-args 0 1 2 --sym-args 0 1 300 --sym-files 1 8 --sym-stdin 8 --sym-stdout"
      else if name = "printf" then
        "--sym-args 0 3 10 --sym-files 2 12 --sym-stdin 12 --sym-stdout"
      else
        "--sym-args 0 1 10 --sym-args 0 2 2 --sym-files 1 8 --sym-stdin 8 --sym-stdout" := by
  by_cases h1 : name = "dd"
  · subst h1; decide
  by_cases h2 : name = "dircolors"
  · subst h2; decide
  by_cases h3 : name = "echo"
  · subst h3; decide
  by_cases h4 : name = "expr"
  · subst h4; decide
  by_cases h5 : name = "mknod"
  · subst h5; decide
  by_cases h6 : name = "od"
  · subst h6; decide
  by_cases h7 : name = "pathchk"
  · subst h7; decide
  by_cases h8 : name = "printf"
  · subst h8; decide
  simp only [sym_args_for_program, SYM_ARGS_EXCEPTIONS, List.lookup,
    beq_eq_false_iff_ne.mpr h1, beq_eq_false_iff_ne.mpr h2, beq_eq_false_iff_ne.mpr h3,
    beq_eq_false_iff_ne.mpr h4, beq_eq_false_iff_ne.mpr h5, beq_eq_false_iff_ne.mpr h6,
    beq_eq_false_iff_ne.mpr h7, beq_eq_false_iff_ne.mpr h8,
    if_neg h1, if_neg h2, if_neg h3, if_neg h4, if_neg h5, if_neg h6, if_neg h7, if_neg h8,
    Option.getD_none]

/-! ### Theorems: C6 (command shape and flag order) -/

/-- C6 (amended): for every configuration that passes the assertion
and has an empty `additionalOptions` string, the command starts with the
KLEE executable path, ends with the program's Coreutils bitcode path
followed by its symbolic-argument string, and the flags in between are
key/value pairs whose keys appear in the one fixed relative order given
by `masterKeys`.  (With a non-empty `additionalOptions` the claim as
stated fails: that string is inserted verbatim at its slot and may
repeat flags out of order, see the counterexample.) -/
theorem run_command_ordered (kb cs : String) (o : KleeRunOptions) (cmd : List String)
    (h : get_run_command kb cs o = some cmd) (hadd : o.additionalOptions = "") :
    cmd.head? = some (klee_exec_path kb "klee") ∧
    List.IsSuffix [coreutils_src_path cs o.name true, sym_args_for_program o.name] cmd ∧
    ∃ vals : List String,
      cmd = klee_exec_path kb "klee" ::
          (List.zipWith combine (presentKeys o) vals ++
            [coreutils_src_path cs o.name true, sym_args_for_program o.name]) ∧
        List.Sublist (presentKeys o) masterKeys := by
  rw [cmd_eq_of_run h, run_command_structure kb cs o hadd]
  refine ⟨rfl, ?_, presentVals o, rfl, presentKeys_sublist o⟩
  exact ⟨klee_exec_path kb "klee" :: List.zipWith combine (presentKeys o) (presentVals o),
    by simp⟩

/-- Witness for C6: the fully-set example configuration. -/
theorem run_command_ordered_witness :
    ((command "/k" "/c" optsAllSet).filter pyBoolStr).head? =
        some (klee_exec_path "/k" "klee") ∧
    List.IsSuffix [coreutils_src_path "/c" optsAllSet.name true,
        sym_args_for_program optsAllSet.name]
      ((command "/k" "/c" optsAllSet).filter pyBoolStr) ∧
    ∃ vals : List String,
      (command "/k" "/c" optsAllSet).filter pyBoolStr = klee_exec_path "/k" "klee" ::
          (List.zipWith combine (presentKeys optsAllSet) vals ++
            [coreutils_src_path "/c" optsAllSet.name true,
             sym_args_for_program optsAllSet.name]) ∧
        List.Sublist (presentKeys optsAllSet) masterKeys :=
  run_command_ordered "/k" "/c" optsAllSet _ (by decide) rfl

/-- Counterexample for C6 as stated: the flag strings `--env-file=z` and
`--search=dfs` occur in one relative order in a configuration that sets
`envFile := "z"`, and in the opposite relative order in a configuration
that passes the same flag text through `additionalOptions`; so no single
fixed order covers every configuration. -/
theorem run_command_order_counterexample :
    List.Sublist ["--env-file=z", "--search=dfs"]
        ((get_run_command "/k" "/c" optsEnvZ).getD []) ∧
    ¬ List.Sublist ["--search=dfs", "--env-file=z"]
        ((get_run_command "/k" "/c" optsEnvZ).getD []) ∧
    List.Sublist ["--search=dfs", "--env-file=z"]
        ((get_run_command "/k" "/c" optsAddZ).getD []) ∧
    ¬ List.Sublist ["--env-file=z", "--search=dfs"]
        ((get_run_command "/k" "/c" optsAddZ).getD []) := by
  decide

/-! ### Theorems: C2 (flags omitted for unset optional fields) -/

/-- C2 (amended): whenever the assertion passes, each of the eight
`opt_arg` fields — `batchingInstrs`, `solverTimeout`, `logFile`,
`debugDumpZ3File`, `stateOutputFile`, `trOutputFile`, `stateInputFile`,
`trInputFile` — that is unset contributes no flag string: no element of
the returned list is `key=value` text for that field's flag key.  (The
side conditions pin down the environment: no manual `additionalOptions`
text, an `=`-free KLEE bin path, and an absolute Coreutils source path;
`timeToRun` and `instructions`, which the claim also listed, are
excluded — unset, they still produce `--max-time=0s`, `--watchdog=False`
and `--max-instructions=0`, see the counterexample.) -/
theorem klee_unset_flags (kb cs : String) (o : KleeRunOptions) (cmd : List String)
    (h : get_run_command kb cs o = some cmd) (hadd : o.additionalOptions = "")
    (hkb : '=' ∉ kb.data) (hcs : cs.data.head? = some '/') :
    (o.solverTimeout = none → ∀ v, combine "--max-solver-time" v ∉ cmd) ∧
    (o.logFile = none → ∀ v, combine "--use-query-log" v ∉ cmd) ∧
    (o.batchingInstrs = none →
      (∀ v, combine "--use-batching-search" v ∉ cmd) ∧
      (∀ v, combine "--batch-instructions" v ∉ cmd)) ∧
    (o.debugDumpZ3File = none → ∀ v, combine "--debug-z3-dump-queries" v ∉ cmd) ∧
    (o.stateOutputFile = none → ∀ v, combine "--state-output" v ∉ cmd) ∧
    (o.trOutputFile = none → ∀ v, combine "--tr-output" v ∉ cmd) ∧
    (o.stateInputFile = none → ∀ v, combine "--state-input" v ∉ cmd) ∧
    (o.trInputFile = none → ∀ v, combine "--tr-input" v ∉ cmd) := by
  rw [cmd_eq_of_run h]
  refine ⟨?_, ?_, ?_, ?_, ?_, ?_, ?_, ?_⟩
  · intro hf v
    exact combine_not_mem_cmd kb cs o hkb hcs hadd v (by decide) (by decide)
      (key_absent_solverTimeout o hf)
  · intro hf v
    exact combine_not_mem_cmd kb cs o hkb hcs hadd v (by decide) (by decide)
      (key_absent_logFile o hf)
  · intro hf
    constructor
    · intro v
      exact combine_not_mem_cmd kb cs o hkb hcs hadd v (by decide) (by decide)
        (key_absent_batching1 o hf)
    · intro v
      exact combine_not_mem_cmd kb cs o hkb hcs hadd v (by decide) (by decide)
        (key_absent_batching2 o hf)
  · intro hf v
    exact combine_not_mem_cmd kb cs o hkb hcs hadd v (by decide) (by decide)
      (key_absent_debugDump o hf)
  · intro hf v
    exact combine_not_mem_cmd kb cs o hkb hcs hadd v (by decide) (by decide)
      (key_absent_stateOutput o hf)
  · intro hf v
    exact combine_not_mem_cmd kb cs o hkb hcs hadd v (by decide) (by decide)
      (key_absent_trOutput o hf)
  · intro hf v
    exact combine_not_mem_cmd kb cs o hkb hcs hadd v (by decide) (by decide)
      (key_absent_stateInput o hf)
  · intro hf v
    exact combine_not_mem_cmd kb cs o hkb hcs hadd v (by decide) (by decide)
      (key_absent_trInput o hf)

/-- Witness for C2: the all-unset example configuration carries none of
the eight optional flags. -/
theorem klee_unset_flags_witness :
    combine "--max-solver-time" "30" ∉ ((command "/k" "/c" optsAllUnset).filter pyBoolStr) ∧
    combine "--use-query-log" "all:smt2" ∉
        ((command "/k" "/c" optsAllUnset).filter pyBoolStr) ∧
    combine "--use-batching-search" "True" ∉
        ((command "/k" "/c" optsAllUnset).filter pyBoolStr) ∧
    combine "--batch-instructions" "800" ∉
        ((command "/k" "/c" optsAllUnset).filter pyBoolStr) ∧
    combine "--debug-z3-dump-queries" "d" ∉
        ((command "/k" "/c" optsAllUnset).filter pyBoolStr) ∧
    combine "--state-output" "s" ∉ ((command "/k" "/c" optsAllUnset).filter pyBoolStr) ∧
    combine "--tr-output" "t" ∉ ((command "/k" "/c" optsAllUnset).filter pyBoolStr) ∧
    combine "--state-input" "u" ∉ ((command "/k" "/c" optsAllUnset).filter pyBoolStr) ∧
    combine "--tr-input" "w" ∉ ((command "/k" "/c" optsAllUnset).filter pyBoolStr) := by
  have h := klee_unset_flags "/k" "/c" optsAllUnset
    ((command "/k" "/c" optsAllUnset).filter pyBoolStr) rfl rfl (by decide) (by decide)
  exact ⟨h.1 rfl "30", h.2.1 rfl "all:smt2", (h.2.2.1 rfl).1 "True", (h.2.2.1 rfl).2 "800",
    h.2.2.2.1 rfl "d", h.2.2.2.2.1 rfl "s", h.2.2.2.2.2.1 rfl "t",
    h.2.2.2.2.2.2.1 rfl "u", h.2.2.2.2.2.2.2 rfl "w"⟩

/-- Counterexample for C2 as stated: the claim also listed `timeToRun`
and `instructions` among the fields that contribute no flag when unset,
but an unset `timeToRun` still produces `--max-time=0s` and
`--watchdog=False`, and an unset `instructions` still produces
`--max-instructions=0`. -/
theorem klee_unset_flags_counterexample :
    optsAllUnset.timeToRun = none ∧
    "--max-time=0s" ∈ ((get_run_command "/k" "/c" optsAllUnset).getD []) ∧
    "--watchdog=False" ∈ ((get_run_command "/k" "/c" optsAllUnset).getD []) ∧
    optsEnvZ.instructions = none ∧
    "--max-instructions=0" ∈ ((get_run_command "/k" "/c" optsEnvZ).getD []) := by
  decide

/-! ### Theorems: C5, C7 (set/default flag values) -/

/-- C5: whenever the assertion passes, each set optional field adds its
correctly formatted flag: `solverTimeout=t` adds `--max-solver-time=t`,
a set `logFile` adds `--use-query-log=all:smt2`, `batchingInstrs=n` adds
both `--use-batching-search=True` and `--batch-instructions=n`, and each
set file field adds its `--key=value` flag. -/
theorem klee_set_flags (kb cs : String) (o : KleeRunOptions) (cmd : List String)
    (h : get_run_command kb cs o = some cmd) :
    (∀ t : Int, o.solverTimeout = some t → ("--max-solver-time=" ++ toString t) ∈ cmd) ∧
    (∀ f, o.logFile = some f → "--use-query-log=all:smt2" ∈ cmd) ∧
    (∀ n : Int, o.batchingInstrs = some n →
      "--use-batching-search=True" ∈ cmd ∧ ("--batch-instructions=" ++ toString n) ∈ cmd) ∧
    (∀ f, o.debugDumpZ3File = some f → ("--debug-z3-dump-queries=" ++ f) ∈ cmd) ∧
    (∀ f, o.stateOutputFile = some f → ("--state-output=" ++ f) ∈ cmd) ∧
    (∀ f, o.trOutputFile = some f → ("--tr-output=" ++ f) ∈ cmd) ∧
    (∀ f, o.stateInputFile = some f → ("--state-input=" ++ f) ∈ cmd) ∧
    (∀ f, o.trInputFile = some f → ("--tr-input=" ++ f) ∈ cmd) := by
  refine ⟨?_, ?_, ?_, ?_, ?_, ?_, ?_, ?_⟩
  · intro t ht
    exact mem_of_run h (append_ne_empty_left _ _ (by decide))
      (by simp [command, ht, opt_arg, arg])
  · intro f hf
    exact mem_of_run h (by decide) (by simp [command, hf, opt_arg, arg])
  · intro n hn
    constructor
    · exact mem_of_run h (by decide) (by simp [command, hn, opt_arg, arg])
    · exact mem_of_run h (append_ne_empty_left _ _ (by decide))
        (by simp [command, hn, opt_arg, arg])
  · intro f hf
    exact mem_of_run h (append_ne_empty_left _ _ (by decide))
      (by simp [command, hf, opt_arg, arg])
  · intro f hf
    exact mem_of_run h (append_ne_empty_left _ _ (by decide))
      (by simp [command, hf, opt_arg, arg])
  · intro f hf
    exact mem_of_run h (append_ne_empty_left _ _ (by decide))
      (by simp [command, hf, opt_arg, arg])
  · intro f hf
    exact mem_of_run h (append_ne_empty_left _ _ (by decide))
      (by simp [command, hf, opt_arg, arg])
  · intro f hf
    exact mem_of_run h (append_ne_empty_left _ _ (by decide))
      (by simp [command, hf, opt_arg, arg])

/-- Witness for C5: the fully-set example configuration carries all
eight flags. -/
theorem klee_set_flags_witness :
    ("--max-solver-time=" ++ toString (30 : Int)) ∈
        ((command "/k" "/c" optsAllSet).filter pyBoolStr) ∧
    "--use-query-log=all:smt2" ∈ ((command "/k" "/c" optsAllSet).filter pyBoolStr) ∧
    "--use-batching-search=True" ∈ ((command "/k" "/c" optsAllSet).filter pyBoolStr) ∧
    ("--batch-instructions=" ++ toString (800 : Int)) ∈
        ((command "/k" "/c" optsAllSet).filter pyBoolStr) ∧
    ("--debug-z3-dump-queries=" ++ "debug.z3") ∈
        ((command "/k" "/c" optsAllSet).filter pyBoolStr) ∧
    ("--state-output=" ++ "state.out") ∈ ((command "/k" "/c" optsAllSet).filter pyBoolStr) ∧
    ("--tr-output=" ++ "tr.out") ∈ ((command "/k" "/c" optsAllSet).filter pyBoolStr) ∧
    ("--state-input=" ++ "state.in") ∈ ((command "/k" "/c" optsAllSet).filter pyBoolStr) ∧
    ("--tr-input=" ++ "tr.in") ∈ ((command "/k" "/c" optsAllSet).filter pyBoolStr) := by
  have h := klee_set_flags "/k" "/c" optsAllSet
    ((command "/k" "/c" optsAllSet).filter pyBoolStr) rfl
  exact ⟨h.1 30 rfl, h.2.1 "log.smt2" rfl, (h.2.2.1 800 rfl).1, (h.2.2.1 800 rfl).2,
    h.2.2.2.1 "debug.z3" rfl, h.2.2.2.2.1 "state.out" rfl, h.2.2.2.2.2.1 "tr.out" rfl,
    h.2.2.2.2.2.2.1 "state.in" rfl, h.2.2.2.2.2.2.2 "tr.in" rfl⟩

/-- C7 (amended): a record built from the five required dataclass fields
plus a time limit (the claim's "only required fields" record never
passes the assertion, see the counterexample) produces the documented
default flags; and in general every generated command carries, for each
of these seven options, a flag with the configuration's own value, so an
explicitly set field produces its explicit value instead. -/
theorem klee_default_flags (kb cs csd : String) (name dirName : String)
    (ss : SearchStrategy) (bi : Option Int) (mem : Int) (t : Int) (cmd : List String)
    (h : get_run_command kb cs
        { default_options csd name dirName ss bi mem with timeToRun := some t } = some cmd) :
    ("--solver-backend=z3" ∈ cmd ∧ "--use-cex-cache=True" ∈ cmd ∧
     "--use-independent-solver=True" ∈ cmd ∧ "--use-branch-cache=True" ∈ cmd ∧
     "--external-calls=concrete" ∈ cmd ∧ "--dump-states-on-halt=False" ∈ cmd ∧
     "--max-sym-array-size=4096" ∈ cmd) ∧
    (∀ (o : KleeRunOptions) (cmd2 : List String), get_run_command kb cs o = some cmd2 →
      ("--solver-backend=" ++ o.solver.value) ∈ cmd2 ∧
      ("--use-cex-cache=" ++ pyBool o.cex) ∈ cmd2 ∧
      ("--use-independent-solver=" ++ pyBool o.independent) ∈ cmd2 ∧
      ("--use-branch-cache=" ++ pyBool o.branch) ∈ cmd2 ∧
      ("--external-calls=" ++ o.externalCalls) ∈ cmd2 ∧
      ("--dump-states-on-halt=" ++ pyBool o.dumpStates) ∈ cmd2 ∧
      ("--max-sym-array-size=" ++ toString o.maxSymArraySize) ∈ cmd2) := by
  have hg : ∀ (o : KleeRunOptions) (cmd2 : List String),
      get_run_command kb cs o = some cmd2 →
      ("--solver-backend=" ++ o.solver.value) ∈ cmd2 ∧
      ("--use-cex-cache=" ++ pyBool o.cex) ∈ cmd2 ∧
      ("--use-independent-solver=" ++ pyBool o.independent) ∈ cmd2 ∧
      ("--use-branch-cache=" ++ pyBool o.branch) ∈ cmd2 ∧
      ("--external-calls=" ++ o.externalCalls) ∈ cmd2 ∧
      ("--dump-states-on-halt=" ++ pyBool o.dumpStates) ∈ cmd2 ∧
      ("--max-sym-array-size=" ++ toString o.maxSymArraySize) ∈ cmd2 := by
    intro o cmd2 h2
    refine ⟨?_, ?_, ?_, ?_, ?_, ?_, ?_⟩ <;>
      exact mem_of_run h2 (append_ne_empty_left _ _ (by decide)) (by simp [command, arg])
  have hd := hg _ _ h
  refine ⟨⟨?_, ?_, ?_, ?_, ?_, ?_, ?_⟩, hg⟩
  · simpa [default_options, Solver.value] using hd.1
  · simpa [default_options, pyBool] using hd.2.1
  · simpa [default_options, pyBool] using hd.2.2.1
  · simpa [default_options, pyBool] using hd.2.2.2.1
  · simpa [default_options] using hd.2.2.2.2.1
  · simpa [default_options, pyBool] using hd.2.2.2.2.2.1
  · simpa [default_options] using hd.2.2.2.2.2.2

/-- Witness for C7: a concrete timed default-constructed record carries
the seven documented default flags. -/
theorem klee_default_flags_witness :
    "--solver-backend=z3" ∈
        ((command "/k" "/c"
            { default_options "/c" "echo" "out" .DFS none 2000 with
              timeToRun := some 60 }).filter pyBoolStr) ∧
    "--use-cex-cache=True" ∈
        ((command "/k" "/c"
            { default_options "/c" "echo" "out" .DFS none 2000 with
              timeToRun := some 60 }).filter pyBoolStr) ∧
    "--use-independent-solver=True" ∈
        ((command "/k" "/c"
            { default_options "/c" "echo" "out" .DFS none 2000 with
              timeToRun := some 60 }).filter pyBoolStr) ∧
    "--use-branch-cache=True" ∈
        ((command "/k" "/c"
            { default_options "/c" "echo" "out" .DFS none 2000 with
              timeToRun := some 60 }).filter pyBoolStr) ∧
    "--external-calls=concrete" ∈
        ((command "/k" "/c"
            { default_options "/c" "echo" "out" .DFS none 2000 with
              timeToRun := some 60 }).filter pyBoolStr) ∧
    "--dump-states-on-halt=False" ∈
        ((command "/k" "/c"
            { default_options "/c" "echo" "out" .DFS none 2000 with
              timeToRun := some 60 }).filter pyBoolStr) ∧
    "--max-sym-array-size=4096" ∈
        ((command "/k" "/c"
            { default_options "/c" "echo" "out" .DFS none 2000 with
              timeToRun := some 60 }).filter pyBoolStr) := by
  have h := klee_default_flags "/k" "/c" "/c" "echo" "out" .DFS none 2000 60
    ((command "/k" "/c"
        { default_options "/c" "echo" "out" .DFS none 2000 with
          timeToRun := some 60 }).filter pyBoolStr) rfl
  exact h.1

/-- Counterexample for C7 as stated: a record constructed with only the
five required fields leaves both `timeToRun` and `instructions` at
`None`, so the assertion fails and no command is generated at all; the
claim's precondition is unsatisfiable. -/
theorem klee_default_flags_counterexample :
    get_run_command "/k" "/c" (default_options "/c" "echo" "out" .DFS (some 800) 2000) =
      none := by
  decide

/-! ### Theorems: C3, C4, C8, C9 (kresult.py, util.py) -/

/-- C3: the CSV value coercion: for a string value stored under the
requested field, `KResult.get` returns `int(value)` when the string
parses as a Python int, otherwise `float(value)` when it parses as a
Python float, and otherwise the string unchanged. -/
theorem kresult_get_coercion (data : List (String × String)) (field : KResultField)
    (s : String) (h : data.lookup field.value = some s) :
    (∀ n, pyInt s = some n → (KResult.mk data).get field = .ok (.int n)) ∧
    (pyInt s = none → ∀ f, pyFloat s = some f →
      (KResult.mk data).get field = .ok (.float f)) ∧
    (pyInt s = none → pyFloat s = none → (KResult.mk data).get field = .ok (.str s)) := by
  refine ⟨?_, ?_, ?_⟩
  · intro n hn
    simp [KResult.get, h, parse_value, hn]
  · intro hn f hf
    simp [KResult.get, h, parse_value, hn, hf]
  · intro hn hf
    simp [KResult.get, h, parse_value, hn, hf]

/-- Witness for C3, exercising all three branches on concrete rows:
an integer string, a float string, and a non-numeric string. -/
theorem kresult_get_coercion_witness :
    KResult.get ⟨[("Time(s)", "42")]⟩ .TIME = .ok (.int 42) ∧
    KResult.get ⟨[("Time(s)", "3.5")]⟩ .TIME = .ok (.float (.finite 35 (-1))) ∧
    KResult.get ⟨[("Time(s)", "n/a")]⟩ .TIME = .ok (.str "n/a") :=
  ⟨(kresult_get_coercion [("Time(s)", "42")] .TIME "42" (by decide)).1 42 (by decide),
   (kresult_get_coercion [("Time(s)", "3.5")] .TIME "3.5" (by decide)).2.1 (by decide)
     (.finite 35 (-1)) (by decide),
   (kresult_get_coercion [("Time(s)", "n/a")] .TIME "n/a" (by decide)).2.2 (by decide)
     (by decide)⟩

/-- C4: `KResult.from_csv` raises `AssertionError` whenever the parsed
CSV contents contain more than one data row. -/
theorem from_csv_multi_row (lines : List String)
    (h : 1 < (dict_from_csv lines).length) :
    KResult.from_csv lines = .error .assertionError := by
  match hd : dict_from_csv lines with
  | [] => rw [hd] at h; simp at h
  | [a] => rw [hd] at h; simp at h
  | a :: b :: t => simp [KResult.from_csv, hd]

/-- Witness for C4: a header plus two data rows raises. -/
theorem from_csv_multi_row_witness :
    1 < (dict_from_csv ["a,b", "1,2", "3,4"]).length ∧
    KResult.from_csv ["a,b", "1,2", "3,4"] = .error .assertionError :=
  ⟨by decide, from_csv_multi_row _ (by decide)⟩

/-- C8: `KResult.from_csv` also raises `AssertionError` on zero data
rows (header-only or empty file), rather than returning a `KResult`. -/
theorem from_csv_zero_rows (lines : List String)
    (h : (dict_from_csv lines).length = 0) :
    KResult.from_csv lines = .error .assertionError := by
  simp [KResult.from_csv, List.length_eq_zero.mp h]

/-- Witness for C8: a header-only file raises. -/
theorem from_csv_zero_rows_witness :
    (dict_from_csv ["Time(s),Instrs"]).length = 0 ∧
    KResult.from_csv ["Time(s),Instrs"] = .error .assertionError :=
  ⟨by decide, from_csv_zero_rows _ (by decide)⟩

/-- C9: when the requested field's column is absent from the stored
data, `dict.get` yields `None`, `int(None)` raises `TypeError`, and the
`except ValueError` handlers do not catch it, so `KResult.get`
propagates `TypeError` instead of returning a default. -/
theorem kresult_get_missing_field (r : KResult) (field : KResultField)
    (h : r._data.lookup field.value = none) :
    r.get field = .error .typeError := by
  simp [KResult.get, h, parse_value]

/-- Witness for C9: asking for `Time(s)` in a row that only has an
`Instrs` column raises `TypeError`. -/
theorem kresult_get_missing_field_witness :
    (KResult.mk [("Instrs", "7")])._data.lookup KResultField.TIME.value = none ∧
    (KResult.mk [("Instrs", "7")]).get .TIME = .error .typeError :=
  ⟨by decide, kresult_get_missing_field _ _ (by decide)⟩

end KleeBench
